import Mathlib

/-!
Verification of the weather-aware scheduler core against its
natural-language specification.  The definitions below are a shallow
embedding of the Python sources under `src/`:

* `src/services/policy.py`, `src/models/entities.py`  — risk categorization
* `src/tools/mock_weather.py`                          — weather oracle
* `src/tools/mock_calendar.py`                         — calendar oracle
* `src/services/validator.py`                          — slot validation
* `src/services/time_utils.py`                         — date resolution
* `src/graph/nodes.py`, `src/graph/edges.py`,
  `src/graph/builder.py`                               — workflow state machine

Datetimes are modelled as minutes since a Monday 00:00 epoch, so that
`weekday`, `hour` and `minute` are arithmetic projections and the mock
tools' recurring weekly rules are expressible.
-/

namespace Scheduler

/-- Weekday of an epoch-minute value, 0 = Monday .. 6 = Sunday. -/
def weekdayOf (t : Nat) : Nat := t / 1440 % 7

/-- Hour-of-day of an epoch-minute value. -/
def hourOf (t : Nat) : Nat := t % 1440 / 60

/-- Minute-of-hour of an epoch-minute value. -/
def minuteOf (t : Nat) : Nat := t % 60

/-- Minutes elapsed since midnight of the same day. -/
def minutesOfDay (t : Nat) : Nat := t % 1440

/-- Substring occurrence on character lists (Python `sub in s`). -/
def subOccursIn (sub : List Char) : List Char → Bool
  | [] => sub.isEmpty
  | c :: rest => sub.isPrefixOf (c :: rest) || subOccursIn sub rest

/-- Python's `pat in s` on strings. -/
def strContains (s pat : String) : Bool := subOccursIn pat.toList s.toList

/-- Python's `sep.join(parts)`. -/
def joinSep (sep : String) : List String → String
  | [] => ""
  | [x] => x
  | x :: y :: rest => x ++ sep ++ joinSep sep (y :: rest)

/-- Python `str.lower()` (modelled over the character list so that it is
kernel-computable). -/
def pyLower (s : String) : String := ⟨s.data.map Char.toLower⟩

/-- Python truthiness of an optional string (`None` and `""` are falsy). -/
def strTruthy : Option String → Bool
  | none => false
  | some s => s ≠ ""

/-- Weekday names as produced by `strftime` `%A`. -/
def weekdayName : Nat → String
  | 0 => "Monday"
  | 1 => "Tuesday"
  | 2 => "Wednesday"
  | 3 => "Thursday"
  | 4 => "Friday"
  | 5 => "Saturday"
  | _ => "Sunday"

/-- Two-digit zero padding used by `strftime` numeric fields. -/
def twoDigit (n : Nat) : String := (if n < 10 then "0" else "") ++ toString n

/-- `strftime` format `%A %H:%M` used in mock weather descriptions. -/
def fmtWeekdayHM (t : Nat) : String :=
  weekdayName (weekdayOf t) ++ " " ++ twoDigit (hourOf t) ++ ":" ++ twoDigit (minuteOf t)

/-! ## Risk categorization (`src/services/policy.py`, `src/models/entities.py`) -/

/-- `RiskCategory` enum from `src/models/entities.py`. -/
inductive RiskCategory
  | high
  | moderate
  | low
  deriving DecidableEq, Repr

/-- Value of the `str`-valued enum member. -/
def RiskCategory.toStr : RiskCategory → String
  | .high => "high"
  | .moderate => "moderate"
  | .low => "low"

/-- `categorize_rain_risk` from `src/services/policy.py` (lines 101-124). -/
def categorize_rain_risk (prob_rain : Nat) : String :=
  if prob_rain ≥ 60 then "high"
  else if prob_rain ≥ 30 then "moderate"
  else "low"

/-- `WeatherCondition.categorize_risk` from `src/models/entities.py` (lines 52-67):
a pydantic before-validator that keeps an explicitly supplied `RiskCategory`
and otherwise derives the tier from `prob_rain`. -/
def categorize_risk (v : Option RiskCategory) (prob_rain : Nat) : RiskCategory :=
  match v with
  | some r => r
  | none =>
    if prob_rain ≥ 60 then .high
    else if prob_rain ≥ 30 then .moderate
    else .low

/-! ## Mock weather tool (`src/tools/mock_weather.py`) -/

/-- `WeatherCondition` model from `src/models/entities.py`. -/
structure WeatherCondition where
  prob_rain : Nat
  risk_category : RiskCategory
  description : String
  deriving DecidableEq, Repr

/-- `MockWeatherTool.__init__` lowercases the stored context. -/
def mkWeatherContext (context : String) : String := pyLower context

/-- Rule body of `MockWeatherTool.get_forecast` (lines 28-73), i.e. the
behaviour when `raise_on_error` is false.  `context` is the stored
(lowercased) context string. -/
def forecast_rules (context city : String) (dt : Nat) : WeatherCondition :=
  if strContains context "rain" || strContains context "rainy" then
    { prob_rain := 70
      risk_category := .high
      description := "High chance of rain detected in " ++ city ++ " for " ++ fmtWeekdayHM dt }
  else if weekdayOf dt = 4 && (14 ≤ hourOf dt && hourOf dt < 16) then
    { prob_rain := 65
      risk_category := .high
      description := "Typical rainy period in " ++ city ++ " on Friday afternoon" }
  else
    { prob_rain := 15
      risk_category := .low
      description := "Clear weather expected in " ++ city ++ " for " ++ fmtWeekdayHM dt }

/-- `MockWeatherTool.get_forecast` including the `raise_on_error` guard. -/
def get_forecast (raise_on_error : Bool) (context city : String) (dt : Nat) :
    Except String WeatherCondition :=
  if raise_on_error then .error "Mock weather service unavailable"
  else .ok (forecast_rules context city dt)

/-! ## Mock calendar tool (`src/tools/mock_calendar.py`) -/

/-- The `conflict_details` dictionary returned on conflict. -/
structure ConflictDetails where
  conflicting_event_id : String
  conflicting_time : Nat
  duration : Nat
  deriving DecidableEq, Repr

/-- Return value of `check_slot_availability`. -/
structure AvailabilityResult where
  status : String
  conflict_details : Option ConflictDetails
  next_available : Nat
  candidates : List Nat
  deriving DecidableEq, Repr

/-- The single predefined blocked slot: Friday 15:00, 30 minutes. -/
def blockedSlot : Nat × Nat × Nat × Nat := (4, 15, 0, 30)

/-- `MockCalendarTool._generate_candidates` (lines 199-214). -/
def generate_candidates (conflict_dt : Nat) (_duration : Nat) : List Nat :=
  [conflict_dt + 30, conflict_dt + 60, conflict_dt + 120]

/-- Body of `MockCalendarTool.check_slot_availability` (lines 32-82) when
`raise_on_error` is false.  The blocked-slot scan compares the requested
start's weekday, hour and minute for exact equality. -/
def availability (dt : Nat) (duration_min : Nat) : AvailabilityResult :=
  if weekdayOf dt = 4 && hourOf dt = 15 && minuteOf dt = 0 then
    let candidates := generate_candidates dt duration_min
    { status := "conflict"
      conflict_details := some
        { conflicting_event_id := "mock-conflict-001"
          conflicting_time := dt
          duration := 30 }
      next_available := candidates.headD (dt + 60)
      candidates := candidates }
  else
    { status := "available"
      conflict_details := none
      next_available := dt
      candidates := [] }

/-- `MockCalendarTool.check_slot_availability` including the error guard. -/
def check_slot_availability (raise_on_error : Bool) (dt : Nat) (duration_min : Nat) :
    Except String AvailabilityResult :=
  if raise_on_error then .error "Mock calendar service unavailable"
  else .ok (availability dt duration_min)

/-- `MockCalendarTool.check_conflicts` (lines 126-164): interval-arithmetic
overlap against the blocked slot, returning the list of conflicting
intervals (start minute-of-day, end minute-of-day). -/
def check_conflicts (dt : Nat) (duration_min : Nat) : List (Nat × Nat) :=
  if weekdayOf dt = 4 then
    let req_start := hourOf dt * 60 + minuteOf dt
    let req_end := req_start + duration_min
    let slot_start := 15 * 60 + 0
    let slot_end := slot_start + 30
    if req_start < slot_end && req_end > slot_start then
      [(slot_start, slot_end)]
    else []
  else []

/-- Overlap rule exactly as the spec words it (for comparison with the
source): two intervals conflict iff requestedStart < busyEnd AND
requestedEnd > busyStart, against the recurring Friday 15:00 + 30 min
busy interval. -/
def spec_interval_overlap (dt : Nat) (duration_min : Nat) : Bool :=
  weekdayOf dt = 4 && minutesOfDay dt < 15 * 60 + 30 && minutesOfDay dt + duration_min > 15 * 60

/-- `CalendarEvent` model from `src/models/entities.py`. -/
structure CalendarEvent where
  event_id : String
  city : String
  datetime : Nat
  duration : Nat
  attendees : List String
  reason : String
  notes : Option String
  status : String
  deriving DecidableEq, Repr

/-- `MockCalendarTool.create_event` (lines 84-124).  `fresh` stands for the
`uuid.uuid4().hex[:8]` value drawn at call time. -/
def mock_create_event (fresh : String) (city : String) (dt : Nat) (duration_min : Nat)
    (attendees : List String) (notes : Option String) : CalendarEvent :=
  { event_id := "mock-event-" ++ fresh
    city := city
    datetime := dt
    duration := duration_min
    attendees := attendees
    reason := "Event created successfully"
    notes := notes
    status := "confirmed" }

/-! ## Slot validation (`src/services/validator.py`) -/

/-- `Slot` model from `src/models/entities.py` (datetime as signed minutes so
that "in the past" is expressible relative to an arbitrary clock). -/
structure Slot where
  city : String
  datetime : Int
  duration : Int
  attendees : List String
  description : Option String
  deriving DecidableEq, Repr

/-- Python `str.strip()`: drop leading and trailing whitespace (modelled over
the character list so that it is kernel-computable). -/
def pyStrip (s : String) : String :=
  ⟨((s.data.dropWhile Char.isWhitespace).reverse.dropWhile Char.isWhitespace).reverse⟩

/-- Message raised when the city is empty (validator.py line 36). -/
def msgCityEmpty : String := "City cannot be empty. Please provide a location."

/-- Placeholder for `strftime` on the two datetimes in the past-time message. -/
def fmtClock (t : Int) : String := toString t

/-- Message raised when the requested time is before `now` (validator.py lines 41-45). -/
def msgPast (dt now : Int) : String :=
  "Cannot schedule in the past. Requested time: " ++ fmtClock dt ++
    ", Current time: " ++ fmtClock now

/-- Message raised when the duration is out of range (validator.py lines 49-52). -/
def msgDuration (d : Int) : String :=
  "Duration must be between 5 and 480 minutes (5 min to 8 hours). Provided: " ++
    toString d ++ " minutes"

/-- `validate_slot` from `src/services/validator.py` (lines 11-54); `now` is
the clock value read inside the function. -/
def validate_slot (slot : Slot) (now : Int) : Except String Bool :=
  if slot.city = "" || pyStrip slot.city = "" then .error msgCityEmpty
  else if slot.datetime < now then .error (msgPast slot.datetime now)
  else if slot.duration < 5 || slot.duration > 480 then .error (msgDuration slot.duration)
  else .ok true

/-! ## Date resolution (`src/services/time_utils.py`) -/

/-- `_next_weekday` from `src/services/time_utils.py` (lines 118-136). -/
def next_weekday (current : Nat) (target_weekday : Nat) : Nat :=
  let days_ahead : Int := (target_weekday : Int) - (weekdayOf current : Int)
  let days_ahead := if days_ahead ≤ 0 then days_ahead + 7 else days_ahead
  current + (days_ahead * 1440).toNat

/-- The `days_of_week` list scanned by `_extract_date`. -/
def daysOfWeek : List String :=
  ["monday", "tuesday", "wednesday", "thursday", "friday", "saturday", "sunday"]

/-- First weekday name occurring in the (lowercased) text, with its index,
mirroring the `for i, day in enumerate(days_of_week)` scan. -/
def findWeekday (text : String) : Option Nat :=
  (List.range 7).find? fun i => strContains text (daysOfWeek.getD i "")

/-- `_extract_date` from `src/services/time_utils.py` (lines 84-115).
`dateutil_result` models the external `dateutil.parser.parse(text, fuzzy=True,
default=now)` call: `some d` when it returns a date, `none` when it raises
(in which case the code falls back to `now`). -/
def extract_date (text : String) (now : Nat) (dateutil_result : Option Nat) : Nat :=
  if strContains text "today" then now
  else if strContains text "tomorrow" then now + 1440
  else
    match findWeekday text with
    | some i => next_weekday now i
    | none =>
      if strContains text "next week" then
        match findWeekday text with
        | some i => next_weekday (now + 7 * 1440) i
        | none => now + 7 * 1440
      else
        match dateutil_result with
        | some d => d
        | none => now

/-! ## Output models (`src/models/outputs.py`) -/

/-- `ActionType` enum. -/
inductive ActionType
  | create
  | adjust_time
  | adjust_place
  | propose_candidates
  deriving DecidableEq, Repr

/-- `EventStatus` enum. -/
inductive EventStatus
  | confirmed
  | adjusted
  | conflict
  | error
  deriving DecidableEq, Repr

/-- The `adjustments` dictionary of a policy decision; each branch of
`confirm_or_adjust_node` populates a different key. -/
structure Adjustments where
  candidates : Option (List Nat) := none
  weather_warning : Option String := none
  indoor_suggestion : Option Bool := none
  deriving DecidableEq, Repr

/-- `PolicyDecision` model. -/
structure PolicyDecision where
  action : ActionType
  reason : String
  notes : Option String
  adjustments : Adjustments
  deriving DecidableEq, Repr

/-- `EventSummary` model: the orchestrator's sole output contract. -/
structure EventSummary where
  status : EventStatus
  summary_text : String
  reason : String
  notes : Option String := none
  alternatives : Option (List Nat) := none
  event_id : Option String := none
  deriving DecidableEq, Repr

/-! ## Policy decision (`confirm_or_adjust_node`, `src/graph/nodes.py` lines 207-262) -/

/-- Decision core of `confirm_or_adjust_node`: pure function of the conflict
flag, the risk tier string, the proposed candidates and the weather
description, exactly mirroring the four-way `if`/`elif` chain. -/
def confirm_or_adjust (has_conflicts : Bool) (rain_risk : String)
    (proposed : List Nat) (weather_description : String) : PolicyDecision :=
  if has_conflicts then
    { action := .propose_candidates
      reason := "Calendar conflict detected at requested time"
      notes := some "Please select from alternative time slots"
      adjustments := { candidates := some proposed } }
  else if rain_risk = RiskCategory.high.toStr then
    { action := .adjust_time
      reason := "High rain probability detected at requested time"
      notes := some "Consider rescheduling to avoid weather risk"
      adjustments := { weather_warning := some weather_description } }
  else if rain_risk = RiskCategory.moderate.toStr then
    { action := .adjust_place
      reason := "Moderate rain probability detected"
      notes := some "Consider indoor venue or bring umbrella"
      adjustments := { indoor_suggestion := some true } }
  else
    { action := .create
      reason := "No conflicts detected, weather conditions acceptable"
      notes := none
      adjustments := {} }

/-! ## Workflow state (`src/models/state.py` plus the extra keys the nodes use) -/

/-- The `weather` dictionary stored in the state by `check_weather_node`. -/
structure WeatherDict where
  prob_rain : Nat
  risk_category : String
  description : String
  deriving DecidableEq, Repr

/-- `SchedulerState`: `none` models an absent/None key; `retry_count`,
`clarification_count` and `degradation_notes` default like `state.get(k, d)`. -/
structure SchedState where
  input_text : String := ""
  user_input : String := ""
  city : Option String := none
  dt : Option Nat := none
  duration_min : Option Nat := none
  attendees : List String := []
  description : Option String := none
  weather : Option WeatherDict := none
  rain_risk : Option String := none
  conflicts : List ConflictDetails := []
  proposed : List Nat := []
  no_conflicts : Option Bool := none
  error : Option String := none
  clarification_needed : Option String := none
  retry_count : Nat := 0
  clarification_count : Nat := 0
  degradation_notes : List String := []
  policy_decision : Option PolicyDecision := none
  event_summary : Option EventSummary := none
  suggested_time : Option Nat := none
  deriving Repr

/-- Outcome of `parse_natural_language` + `validate_slot` as observed by
`intent_and_slots_node`:

* `ok` — a validated slot (city, datetime, duration, attendees, description);
* `caught msg` — a raised `ParseError` or `src.services.validator.ValidationError`,
  the two classes named by the `except` clause at `src/graph/nodes.py` line 78;
* `uncaught exc` — a pydantic `ValidationError` raised while constructing
  `Slot(...)` inside `parse_natural_language` (duration outside 5-480, or a
  datetime not in the future at parse time): pydantic's class is distinct
  from the validator module's `ValidationError`, so the `except` clause
  does not catch it and it propagates out of the node. -/
inductive ParseResult
  | ok (city : String) (dt : Nat) (duration : Nat) (attendees : List String)
      (description : Option String)
  | caught (msg : String)
  | uncaught (exc : String)

/-- External collaborators seen by the nodes.

* `parse` — outcome of `parse_natural_language` + `validate_slot` on the input
  text, as a `ParseResult` (success, caught exception message, or uncaught
  pydantic exception).
* `forecast` — result of `_get_forecast_with_retry`.  Modelled from the spec:
  `src/lib/retry.py` is not under `src/`; per the spec (one automatic retry,
  then graceful degradation) and the comments in `check_weather_node`, the
  wrapper "returns None on failure after retries", hence an `Option`.
* `avail` — result of `_check_availability_with_retry`, likewise `Option`.
* `createEvent` — `_calendar_tool.create_event`, which can raise
  `CalendarServiceError` (caught in `create_event_node`). -/
structure Oracles where
  parse : String → ParseResult
  forecast : String → Nat → Option WeatherCondition
  avail : Nat → Nat → Option AvailabilityResult
  createEvent : String → Nat → Nat → List String → Option String →
    Except String CalendarEvent

/-- `user_text = state.get("input_text") or state.get("user_input", "")`. -/
def userText (s : SchedState) : String :=
  if s.input_text ≠ "" then s.input_text else s.user_input

/-- `intent_and_slots_node` (`src/graph/nodes.py` lines 50-82).  The `except`
clause at line 78 names `ParseError` and the validator module's
`ValidationError` only, so a pydantic `ValidationError` from `Slot(...)`
construction escapes the node as an unhandled exception (`.error`). -/
def intent_and_slots_node (orc : Oracles) (s : SchedState) : Except String SchedState :=
  match orc.parse (userText s) with
  | .ok city dt duration attendees descr =>
    .ok { s with
      city := some city, dt := some dt, duration_min := some duration
      attendees := attendees, description := descr
      error := none, clarification_needed := none }
  | .caught msg =>
    .ok { s with
      error := some msg
      clarification_needed := some "Please provide more details about the scheduling request" }
  | .uncaught exc => .error exc

/-- `check_weather_node` (`src/graph/nodes.py` lines 85-113). -/
def check_weather_node (orc : Oracles) (s : SchedState) : SchedState :=
  if strTruthy s.error then s
  else
    match orc.forecast (s.city.getD "") (s.dt.getD 0) with
    | none => { s with error := some "Weather service error after retries" }
    | some w =>
      { s with
        weather := some
          { prob_rain := w.prob_rain
            risk_category := w.risk_category.toStr
            description := w.description }
        rain_risk := some w.risk_category.toStr }

/-- `_find_weather_aware_slot` search loop (`src/graph/nodes.py` lines 169-204):
30-minute steps over an 8-hour window, i.e. 16 iterations. -/
def find_weather_aware_slot_aux (orc : Oracles) (duration_min : Nat) :
    Nat → Nat → Option Nat
  | 0, _ => none
  | k + 1, current =>
    let has_good_weather :=
      match orc.forecast "" current with
      | some w => w.risk_category ≠ .high
      | none => false
    let has_no_conflicts :=
      match orc.avail current duration_min with
      | some r => r.status = "available"
      | none => false
    if has_good_weather && has_no_conflicts then some current
    else find_weather_aware_slot_aux orc duration_min k (current + 30)

/-- `_find_weather_aware_slot` with the default `search_hours=8`. -/
def find_weather_aware_slot (orc : Oracles) (start_dt : Nat) (duration_min : Nat) :
    Option Nat :=
  find_weather_aware_slot_aux orc duration_min 16 start_dt

/-- `find_free_slot_node` (`src/graph/nodes.py` lines 116-166). -/
def find_free_slot_node (orc : Oracles) (s : SchedState) : SchedState :=
  if strTruthy s.error then s
  else
    match orc.avail (s.dt.getD 0) (s.duration_min.getD 0) with
    | none => { s with error := some "Calendar service error after retries" }
    | some result =>
      let s :=
        if result.status = "conflict" then
          { s with no_conflicts := some false
                   conflicts := result.conflict_details.toList
                   proposed := result.candidates }
        else
          { s with no_conflicts := some true, conflicts := [] }
      let needs_alternative :=
        s.rain_risk.getD "low" = RiskCategory.high.toStr || !(s.no_conflicts.getD true)
      if needs_alternative then
        match find_weather_aware_slot orc (s.dt.getD 0) (s.duration_min.getD 0) with
        | some suggested => { s with suggested_time := some suggested }
        | none => s
      else s

/-- `confirm_or_adjust_node` (`src/graph/nodes.py` lines 207-262). -/
def confirm_or_adjust_node (s : SchedState) : SchedState :=
  if strTruthy s.error then s
  else
    let has_conflicts := !(s.no_conflicts.getD true)
    let rain_risk := s.rain_risk.getD "low"
    let weather_description := (s.weather.map (·.description)).getD ""
    { s with
      policy_decision := some
        (confirm_or_adjust has_conflicts rain_risk s.proposed weather_description) }

/-- The full-format example message built on the second clarification failure
(`error_recovery_node`, lines 425-434). -/
def formatExampleMessage : String :=
  "Required information missing after clarification attempt. " ++
  "Please provide a complete request with: " ++
  "Date (e.g. Friday, tomorrow, 2025-10-17), " ++
  "Time (e.g. 2pm, 14:00, afternoon), " ++
  "Location (e.g. Taipei, New York), " ++
  "Duration (e.g. 60min, 1 hour - optional), " ++
  "Attendees (e.g. meet Alice, with Bob - optional). " ++
  "Example: \x27Friday 2pm Taipei meet Alice 60min\x27"

/-- Clarification bullet for a missing time. -/
def bulletTime : String := "• Time: (e.g., \x272pm\x27, \x2714:00\x27, \x27afternoon\x27)"

/-- Clarification bullet for a missing location. -/
def bulletLocation : String := "• Location: (e.g., \x27Taipei\x27, \x27New York\x27)"

/-- Clarification bullet for a missing duration. -/
def bulletDuration : String :=
  "• Duration: (e.g., \x2760min\x27, \x271 hour\x27, default: 60 minutes)"

/-- Clarification bullet for the all-fields fallback. -/
def bulletDurationDefault : String := "• Duration: (optional, default: 60 minutes)"

/-- The field-specific clarification bullets built by `error_recovery_node`
(lines 398-416) from the lowercased error message, with the all-fields
fallback when no field is recognised. -/
def clarification_parts (error_msg : String) : List String :=
  let parts :=
    (if strContains error_msg "time" || strContains error_msg "datetime"
      then [bulletTime] else []) ++
    (if strContains error_msg "location" || strContains error_msg "city"
      then [bulletLocation] else []) ++
    (if strContains error_msg "duration" then [bulletDuration] else [])
  if parts = [] then [bulletTime, bulletLocation, bulletDurationDefault] else parts

/-- `error_recovery_node` (`src/graph/nodes.py` lines 372-504). -/
def error_recovery_node (s : SchedState) : SchedState :=
  let s := { s with retry_count := s.retry_count + 1 }
  if strTruthy s.clarification_needed ||
      (strTruthy s.error && !(strContains (pyLower (s.error.getD "")) "service")) then
    if s.clarification_count = 0 then
      let parts := clarification_parts (pyLower (s.error.getD ""))
      { s with
        clarification_needed := some
          ("Please provide missing information:\n" ++ joinSep "\n" parts)
        clarification_count := 1
        error := none }
    else
      { s with
        event_summary := some
          { status := .error
            summary_text := "Unable to parse scheduling request"
            reason := "Required information missing after clarification attempt"
            notes := some formatExampleMessage }
        clarification_needed := none
        error := some formatExampleMessage }
  else if strTruthy s.error &&
      (strContains (pyLower (s.error.getD "")) "service" ||
        strContains (pyLower (s.error.getD "")) "error") then
    let error_msg := s.error.getD ""
    if strContains (pyLower error_msg) "weather" then
      let city := s.city.getD "your location"
      let time_context :=
        match s.dt with
        | some dt => " at " ++ fmtWeekdayHM dt
        | none => ""
      { s with
        error := none
        weather := none
        degradation_notes := s.degradation_notes ++
          ["Weather service unavailable - manual weather check recommended for " ++
            city ++ time_context] }
    else if strContains (pyLower error_msg) "calendar" then
      { s with
        error := none
        no_conflicts := some true
        degradation_notes := s.degradation_notes ++
          ["Calendar service unavailable - manual conflict check recommended"] }
    else
      { s with
        error := none
        degradation_notes := s.degradation_notes ++
          ["Service error: " ++ error_msg ++ " - proceeding with available information"] }
  else if s.retry_count ≥ 2 then
    { s with
      event_summary := some
        { status := .error
          summary_text := "Failed to schedule event after multiple attempts"
          reason := s.error.getD "Unknown error"
          notes := some "Maximum retry attempts exceeded. Please check your input and try again." }
      error := none }
  else
    if strTruthy s.error && s.retry_count < 2 then
      { s with
        clarification_needed := some
          ("An error occurred: " ++ s.error.getD "" ++
            "\nPlease try rephrasing your request or provide more details.") }
    else s

/-- The `try`/`except CalendarServiceError` block of the CREATE branch of
`create_event_node` (lines 313-347): `res` is the outcome of the
`_calendar_tool.create_event` call. -/
def create_attempt (s : SchedState) (pd : PolicyDecision) (combined_notes : Option String)
    (res : Except String CalendarEvent) : SchedState :=
  match res with
  | .ok event =>
    { s with
      event_summary := some
        { status := .confirmed
          summary_text := "Meeting scheduled in " ++ s.city.getD ""
          reason := pd.reason
          event_id := some event.event_id
          notes := match combined_notes with | some n => some n | none => event.notes } }
  | .error e =>
    { s with
      event_summary := some
        { status := .error
          summary_text := "Failed to create event"
          reason := e
          notes := some "Calendar service error" } }

/-- `create_event_node` (`src/graph/nodes.py` lines 265-369).  The tools are
always configured by `build_graph`, so the `_calendar_tool is None` guard is
never taken.  The `suggested_time` keyword passed to `EventSummary` in the
adjust branch is dropped, as pydantic ignores keys the model does not declare. -/
def create_event_node (orc : Oracles) (s : SchedState) : SchedState :=
  if strTruthy s.clarification_needed then s
  else if strTruthy s.error && s.degradation_notes = [] then
    { s with
      event_summary := some
        { status := .error
          summary_text := "Failed to schedule event"
          reason := s.error.getD ""
          notes := some "Please resolve the error and try again" } }
  else
    let s := if s.degradation_notes ≠ [] then { s with error := none } else s
    let pdAction : Option ActionType × Option PolicyDecision :=
      match s.policy_decision with
      | some pd => (some pd.action, some pd)
      | none =>
        if s.degradation_notes ≠ [] then
          (some .create,
            some { action := .create
                   reason := "Event created with service degradation"
                   notes := none
                   adjustments := {} })
        else (none, none)
    match pdAction with
    | (some .create, some pd) =>
      let notes_parts := (match pd.notes with | some n => [n] | none => []) ++
        s.degradation_notes
      let combined_notes := if notes_parts = [] then none
        else some (joinSep "\n" notes_parts)
      create_attempt s pd combined_notes
        (orc.createEvent (s.city.getD "") (s.dt.getD 0) (s.duration_min.getD 0)
          s.attendees combined_notes)
    | (some .propose_candidates, some pd) =>
      { s with
        event_summary := some
          { status := .conflict
            summary_text := "Calendar conflict detected"
            reason := pd.reason
            alternatives := some s.proposed
            notes := pd.notes } }
    | (some .adjust_time, some pd) =>
      { s with
        event_summary := some
          { status := .adjusted
            summary_text := "Event requires adjustment"
            reason := pd.reason
            notes := pd.notes } }
    | (some .adjust_place, some pd) =>
      { s with
        event_summary := some
          { status := .adjusted
            summary_text := "Event requires adjustment"
            reason := pd.reason
            notes := pd.notes } }
    | _ => s

/-! ## Graph wiring (`src/graph/edges.py`, `src/graph/builder.py`) -/

/-- The six graph nodes. -/
inductive Node
  | intent
  | weather
  | freeSlot
  | adjust
  | createEv
  | recover
  deriving DecidableEq, Repr

/-- `conditional_edge_from_intent`. -/
def edge_from_intent (s : SchedState) : Node :=
  if strTruthy s.error || strTruthy s.clarification_needed then .recover else .weather

/-- `conditional_edge_from_weather`. -/
def edge_from_weather (s : SchedState) : Node :=
  if strTruthy s.error && strContains (pyLower (s.error.getD "")) "weather" then .recover
  else .freeSlot

/-- `conditional_edge_from_conflict`. -/
def edge_from_conflict (s : SchedState) : Node :=
  if strTruthy s.error && strContains (pyLower (s.error.getD "")) "calendar" then .recover
  else .adjust

/-- `conditional_edge_from_error` (`src/graph/edges.py` lines 71-117).
Python boolean context: `state.get("city")` is falsy for an empty string,
a `datetime` object is always truthy. -/
def edge_from_error (s : SchedState) : Node :=
  if s.event_summary.isSome then .createEv
  else if !(strTruthy s.error) && s.degradation_notes ≠ [] then
    if s.no_conflicts = none then .freeSlot else .createEv
  else if !(strTruthy s.error) && !(strTruthy s.clarification_needed) then
    if strTruthy s.city && s.dt.isSome then .weather else .createEv
  else if strTruthy s.clarification_needed then .createEv
  else .createEv

/-- One node execution followed by its outgoing edge; `none` is END
(`create_event` has the unconditional edge to END); `.error` is an exception
escaping the node (the uncaught pydantic `ValidationError` of
`intent_and_slots_node`). -/
def stepNode (orc : Oracles) : Node → SchedState → Except String (SchedState × Option Node)
  | .intent, s =>
    (intent_and_slots_node orc s).map fun s => (s, some (edge_from_intent s))
  | .weather, s =>
    let s := check_weather_node orc s
    .ok (s, some (edge_from_weather s))
  | .freeSlot, s =>
    let s := find_free_slot_node orc s
    .ok (s, some (edge_from_conflict s))
  | .adjust, s =>
    let s := confirm_or_adjust_node s
    .ok (s, some .createEv)
  | .createEv, s =>
    .ok (create_event_node orc s, none)
  | .recover, s =>
    let s := error_recovery_node s
    .ok (s, some (edge_from_error s))

/-- Fuel-bounded execution of the compiled graph from a node: `some (.ok s)`
is a normal terminal state, `some (.error exc)` an exception propagating out
of `graph.invoke` to its caller. -/
def run (orc : Oracles) : Nat → Node → SchedState → Option (Except String SchedState)
  | 0, _, _ => none
  | fuel + 1, n, s =>
    match stepNode orc n s with
    | .error exc => some (.error exc)
    | .ok (s', none) => some (.ok s')
    | .ok (s', some n') => run orc fuel n' s'

/-- `graph.invoke`: entry point is `intent_and_slots`; 8 steps of fuel are
enough for every path of the graph. -/
def invoke (orc : Oracles) (s : SchedState) : Option (Except String SchedState) :=
  run orc 8 .intent s

/-! ## Finalize step in mock mode (for the idempotence claim) -/

/-- The finalize step (`create_event_node`) backed by `MockCalendarTool`,
where `fresh` is the `uuid.uuid4().hex[:8]` value drawn during that
invocation.  Only the `createEvent` collaborator is reachable from this node. -/
def finalize_with (fresh : String) (s : SchedState) : SchedState :=
  create_event_node
    { parse := fun _ => .caught "unused"
      forecast := fun _ _ => none
      avail := fun _ _ => none
      createEvent := fun c t d a n => .ok (mock_create_event fresh c t d a n) } s

/-- Whether `create_event_node` reaches the `_calendar_tool.create_event`
call (the only effectful, identifier-drawing part of the node). -/
def finalize_calls_create (s : SchedState) : Bool :=
  !(strTruthy s.clarification_needed) &&
  !(strTruthy s.error && s.degradation_notes = []) &&
  (match s.policy_decision with
   | some pd => pd.action == ActionType.create
   | none => s.degradation_notes ≠ [])

/-- A state in which the finalize step creates the calendar event (policy
decision CREATE on the happy path). -/
def createPathState : SchedState :=
  { input_text := "Friday 10:00 Taipei meet Alice 60 min"
    city := some "Taipei"
    dt := some (4 * 1440 + 10 * 60)
    duration_min := some 60
    attendees := ["Alice"]
    weather := some { prob_rain := 15, risk_category := "low",
                      description := "Clear weather expected in Taipei for Friday 10:00" }
    rain_risk := some "low"
    no_conflicts := some true
    policy_decision := some
      { action := .create
        reason := "No conflicts detected, weather conditions acceptable"
        notes := none
        adjustments := {} } }

/-! ## Concrete collaborator instances for counterexample runs -/

/-- Collaborators in mock mode: weather and calendar answered by the mock
tools, event ids drawn from `fresh`, parsing answered by `parseResult`. -/
def mockOrc (parseResult : ParseResult) (fresh : String) : Oracles :=
  { parse := fun _ => parseResult
    forecast := fun city t => (get_forecast false "" city t).toOption
    avail := fun t d => (check_slot_availability false t d).toOption
    createEvent := fun c t d a n => .ok (mock_create_event fresh c t d a n) }

/-- The combined `ParseError` message for an input missing both mandatory
fields (city and temporal cue), as `parse_natural_language` joins them. -/
def missingFieldsMsg : String :=
  "City/location not found in input. Please specify a location. " ++
  "Time/datetime not found in input. Please specify when " ++
  "(e.g., \x27tomorrow 2pm\x27, \x27Friday 14:00\x27)."

/-- Mock-mode collaborators for the request "meet Alice": the parser reports
both missing mandatory fields (city and temporal cue). -/
def missingFieldsOrc : Oracles := mockOrc (.caught missingFieldsMsg) "abcd1234"

/-- Modelled pydantic `ValidationError` text for a parsed duration below the
`ge=5` bound of the `Slot` model (e.g. the input
"tomorrow 2pm Taipei meet Alice 2 min", whose duration parses to 2). -/
def pydanticDurationMsg : String :=
  "1 validation error for Slot: duration: Input should be greater than or equal to 5"

/-- Mock-mode collaborators for an input whose extracted duration violates
the pydantic `Slot` bounds: `Slot(...)` raises pydantic's
`ValidationError`, which `intent_and_slots_node` does not catch. -/
def pydanticCrashOrc : Oracles := mockOrc (.uncaught pydanticDurationMsg) "abcd1234"

/-! ## Helper lemmas -/

theorem strData_append (a b : String) : (a ++ b).data = a.data ++ b.data := by
  cases a
  cases b
  rfl

theorem string_ne_empty_of_data (a : String) (h : a.data ≠ []) : a ≠ "" := by
  intro he
  rw [he] at h
  exact h rfl

theorem append_ne_empty_left (a b : String) (h : a ≠ "") : a ++ b ≠ "" := by
  apply string_ne_empty_of_data
  rw [strData_append]
  intro hd
  rcases List.append_eq_nil.mp hd with ⟨h1, _⟩
  apply h
  cases a
  simp_all

theorem strTruthy_append_left (a b : String) (h : a ≠ "") :
    strTruthy (some (a ++ b)) = true := by
  simp [strTruthy]
  exact append_ne_empty_left a b h

theorem get1_of_append (a b : String) (h : 1 < a.data.length) :
    (a ++ b).data.get? 1 = a.data.get? 1 := by
  rw [strData_append]
  exact List.get?_append h

theorem next_weekday_core (now i w : Nat) (hi : i < 7) (hgen : now / 1440 % 7 = w) :
    weekdayOf (next_weekday now i) = i ∧
    now + 1440 ≤ next_weekday now i ∧
    next_weekday now i ≤ now + 7 * 1440 := by
  have hw : w < 7 := by omega
  have e1 : ((i : Int) - (w : Int) + 7) * 1440 =
      1440 * (i : Int) - 1440 * (w : Int) + 10080 := by ring
  have e2 : (1440 * (i : Int) - 1440 * (w : Int) + 10080).toNat =
      1440 * i + 10080 - 1440 * w := by omega
  have e3 : ((i : Int) - (w : Int)) * 1440 =
      1440 * (i : Int) - 1440 * (w : Int) := by ring
  have e4 : (1440 * (i : Int) - 1440 * (w : Int)).toNat =
      1440 * i - 1440 * w := by omega
  simp only [next_weekday, weekdayOf, hgen]
  split_ifs with h
  · rw [e1, e2]
    refine ⟨by omega, by omega, by omega⟩
  · rw [e3, e4]
    refine ⟨by omega, by omega, by omega⟩

/-! ## C3 -/

/-- C3: for every rain probability `p`, the risk categorization is the
exhaustive partition HIGH iff `p ≥ 60`, MODERATE iff `30 ≤ p < 60`, LOW iff
`p < 30`, and the policy-level categorizer and the `WeatherCondition`
validator compute the same mapping. -/
theorem c3_risk_partition (p : Nat) :
    (categorize_rain_risk p = "high" ↔ 60 ≤ p) ∧
    (categorize_rain_risk p = "moderate" ↔ 30 ≤ p ∧ p < 60) ∧
    (categorize_rain_risk p = "low" ↔ p < 30) ∧
    (categorize_risk none p).toStr = categorize_rain_risk p := by
  unfold categorize_rain_risk categorize_risk
  split_ifs with h1 h2 <;>
    simp_all [RiskCategory.toStr] <;> omega

/-! ## C4 -/

/-- C4: the policy decision is chosen by first-match priority — a conflict
forces PROPOSE_CANDIDATES regardless of risk tier, otherwise HIGH risk gives
ADJUST_TIME, MODERATE gives ADJUST_PLACE, and anything else gives CREATE —
and every decision carries a non-empty reason. -/
theorem c4_policy_priority (rr : String) (prop : List Nat) (wd : String) :
    ((confirm_or_adjust true rr prop wd).action = .propose_candidates) ∧
    ((confirm_or_adjust false rr prop wd).action =
      (if rr = "high" then .adjust_time
        else if rr = "moderate" then .adjust_place
        else .create)) ∧
    (∀ hc : Bool, (confirm_or_adjust hc rr prop wd).reason ≠ "") := by
  refine ⟨rfl, ?_, ?_⟩
  · unfold confirm_or_adjust RiskCategory.toStr
    split_ifs <;> simp_all
  · intro hc
    cases hc <;> unfold confirm_or_adjust <;> split_ifs <;> simp

/-! ## C5 -/

/-- C5 counterexample: at Friday 15:15 with a 60-minute duration the
spec's interval-arithmetic rule overlaps the Friday 15:00–15:30 busy slot
(and `check_conflicts` agrees), yet `check_slot_availability` reports
"available" because it only compares the start instant for exact equality. -/
theorem c5_counterexample :
    spec_interval_overlap (4 * 1440 + 15 * 60 + 15) 60 = true ∧
    check_conflicts (4 * 1440 + 15 * 60 + 15) 60 = [(900, 930)] ∧
    (availability (4 * 1440 + 15 * 60 + 15) 60).status = "available" := by
  decide

/-- C5 (amended): the availability check used by the workflow reports
"conflict" iff the requested start is exactly Friday 15:00; the
interval-arithmetic overlap rule is implemented by the separate
`check_conflicts` method, which reports a conflict iff
requestedStart < busyEnd and requestedEnd > busyStart on a Friday. -/
theorem c5_amended (t : Nat) (d : Nat) :
    ((availability t d).status = "conflict" ↔
      (weekdayOf t = 4 ∧ hourOf t = 15 ∧ minuteOf t = 0)) ∧
    ((availability t d).status = "available" ↔
      ¬(weekdayOf t = 4 ∧ hourOf t = 15 ∧ minuteOf t = 0)) ∧
    (check_conflicts t d ≠ [] ↔ spec_interval_overlap t d = true) := by
  unfold availability check_conflicts spec_interval_overlap minutesOfDay
  refine ⟨?_, ?_, ?_⟩ <;> split_ifs <;> simp_all [hourOf, minuteOf] <;> omega

/-! ## C6 -/

/-- C6: whenever the availability check reports a conflict its candidate list
is exactly `[start+30, start+60, start+120]` in that order; the list never
exceeds three entries, is non-empty on "conflict" and empty on "available". -/
theorem c6_candidates (t : Nat) (d : Nat) :
    ((availability t d).candidates =
      (if (availability t d).status = "conflict"
        then [t + 30, t + 60, t + 120] else [])) ∧
    (availability t d).candidates.length ≤ 3 ∧
    (if (availability t d).status = "conflict"
      then 1 ≤ (availability t d).candidates.length
      else (availability t d).candidates = []) := by
  unfold availability generate_candidates
  split_ifs <;> simp_all

/-! ## C8 -/

/-- C8: when it does not raise, the mock weather oracle applies its rules in
priority order — context mentioning rain gives probability 70, the Friday
14:00–16:00 window gives 65, anything else the low-risk default 15 — always
with a non-empty description and a risk tier equal to the one the global
probability mapping derives. -/
theorem c8_weather_rules (context city : String) (t : Nat) :
    ((forecast_rules context city t).prob_rain =
      (if strContains context "rain" || strContains context "rainy" then 70
        else if weekdayOf t = 4 && (decide (14 ≤ hourOf t) && decide (hourOf t < 16)) then 65
        else 15)) ∧
    (forecast_rules context city t).risk_category =
      categorize_risk none (forecast_rules context city t).prob_rain ∧
    (forecast_rules context city t).description ≠ "" ∧
    get_forecast false context city t = .ok (forecast_rules context city t) := by
  refine ⟨?_, ?_, ?_, rfl⟩
  · unfold forecast_rules
    split_ifs <;> rfl
  · unfold forecast_rules categorize_risk
    split_ifs <;> simp_all
  · unfold forecast_rules
    split_ifs <;>
      { repeat' apply append_ne_empty_left
        decide }

/-! ## C7 -/

theorem one_lt_append_data (a b : String) (h : 1 < a.data.length) :
    1 < (a ++ b).data.length := by
  rw [strData_append, List.length_append]
  omega

theorem msgPast_get1 (d n : Int) : (msgPast d n).data.get? 1 = some 'a' := by
  unfold msgPast
  rw [get1_of_append _ _ (one_lt_append_data _ _ (one_lt_append_data _ _ (by decide))),
      get1_of_append _ _ (one_lt_append_data _ _ (by decide)),
      get1_of_append _ _ (by decide)]
  decide

theorem msgDuration_get1 (d : Int) : (msgDuration d).data.get? 1 = some 'u' := by
  unfold msgDuration
  rw [get1_of_append _ _ (one_lt_append_data _ _ (by decide)),
      get1_of_append _ _ (by decide)]
  decide

/-- C7 counterexample: a slot whose start time equals the clock value read at
validation time is accepted, although it is not strictly after that time —
`validate_slot` only rejects strictly-past datetimes. -/
theorem c7_counterexample :
    validate_slot
      { city := "Taipei", datetime := 100, duration := 60,
        attendees := [], description := none } 100 = .ok true ∧
    ¬((100 : Int) < 100) :=
  ⟨rfl, by decide⟩

/-- C7 (amended): `validate_slot` succeeds iff the city is non-empty after
trimming, the start time is **not before** the clock value read at
validation time (equality is accepted), and the duration lies in [5, 480];
each violated invariant produces its own specific message and the three
messages are pairwise distinct. -/
theorem c7_amended (slot : Slot) (now : Int) :
    (validate_slot slot now = .ok true ↔
      (pyStrip slot.city ≠ "" ∧ now ≤ slot.datetime ∧
        5 ≤ slot.duration ∧ slot.duration ≤ 480)) ∧
    (pyStrip slot.city = "" → validate_slot slot now = .error msgCityEmpty) ∧
    (pyStrip slot.city ≠ "" → slot.datetime < now →
      validate_slot slot now = .error (msgPast slot.datetime now)) ∧
    (pyStrip slot.city ≠ "" → now ≤ slot.datetime →
      (slot.duration < 5 ∨ 480 < slot.duration) →
      validate_slot slot now = .error (msgDuration slot.duration)) ∧
    msgCityEmpty ≠ msgPast slot.datetime now ∧
    msgCityEmpty ≠ msgDuration slot.duration ∧
    msgPast slot.datetime now ≠ msgDuration slot.duration := by
  have hce : msgCityEmpty.data.get? 1 = some 'i' := by decide
  have htr : pyStrip "" = "" := by decide
  refine ⟨?_, ?_, ?_, ?_, ?_, ?_, ?_⟩
  · unfold validate_slot
    split_ifs with h1 h2 h3 <;> simp_all
    · intro hne _ _
      rcases h1 with h1 | h1
      · exact absurd (by rw [h1]; exact htr) hne
      · exact absurd h1 hne
    · intro h5
      rcases h3 with h3 | h3 <;> omega
  · intro h
    unfold validate_slot
    split_ifs with h1 <;> simp_all
  · intro h hpast
    unfold validate_slot
    split_ifs with h1 h2 <;> try rfl
    · simp only [Bool.or_eq_true, decide_eq_true_eq] at h1
      rcases h1 with h1 | h1
      · exact absurd (by rw [h1]; decide) h
      · exact absurd h1 h
    all_goals omega
  · intro h hfut hdur
    rcases hdur with hd | hd <;>
      · unfold validate_slot
        split_ifs with h1 h2 h3 <;> simp_all <;> omega
  · intro heq
    have h2 := msgPast_get1 slot.datetime now
    rw [← heq, hce] at h2
    exact absurd h2 (by decide)
  · intro heq
    have h2 := msgDuration_get1 slot.duration
    rw [← heq, hce] at h2
    exact absurd h2 (by decide)
  · intro heq
    have h2 := msgDuration_get1 slot.duration
    rw [← heq, msgPast_get1] at h2
    exact absurd h2 (by decide)

/-! ## C9 -/

/-- C9 counterexample: from a Monday (epoch minute 600), the text
"next week monday" resolves through the weekday-name branch to the very next
Monday (one week ahead), not to two weeks forward from the weekday rule as
the claim states — the weekday scan runs before the "next week" branch, so
the two-weeks case is unreachable. -/
theorem c9_counterexample :
    extract_date "next week monday" 600 none = 600 + 7 * 1440 ∧
    next_weekday (600 + 7 * 1440) 0 = 600 + 14 * 1440 ∧
    ¬(extract_date "next week monday" 600 none = next_weekday (600 + 7 * 1440) 0) := by
  decide

/-- C9 (amended): "today" maps to the current date, "tomorrow" to the next
day, a weekday name to the next occurrence of that weekday strictly after
today (always at least one day ahead, a full week when today is that
weekday) — and this weekday rule also applies when "next week" is present,
since the weekday scan precedes the "next week" branch; "next week" alone
adds seven days; any other input falls back to general date parsing
anchored at today. -/
theorem c9_amended (text : String) (now : Nat) (du : Option Nat) (i : Nat) :
    (strContains text "today" = true → extract_date text now du = now) ∧
    (strContains text "today" = false → strContains text "tomorrow" = true →
      extract_date text now du = now + 1440) ∧
    (strContains text "today" = false → strContains text "tomorrow" = false →
      findWeekday text = some i → extract_date text now du = next_weekday now i) ∧
    (strContains text "today" = false → strContains text "tomorrow" = false →
      findWeekday text = none → strContains text "next week" = true →
      extract_date text now du = now + 7 * 1440) ∧
    (strContains text "today" = false → strContains text "tomorrow" = false →
      findWeekday text = none → strContains text "next week" = false →
      extract_date text now du = du.getD now) ∧
    (i < 7 →
      weekdayOf (next_weekday now i) = i ∧
      now + 1440 ≤ next_weekday now i ∧
      next_weekday now i ≤ now + 7 * 1440) := by
  refine ⟨?_, ?_, ?_, ?_, ?_, ?_⟩
  · intro h
    unfold extract_date
    simp [h]
  · intro h1 h2
    unfold extract_date
    simp [h1, h2]
  · intro h1 h2 h3
    unfold extract_date
    simp [h1, h2, h3]
  · intro h1 h2 h3 h4
    unfold extract_date
    simp [h1, h2, h3, h4]
  · intro h1 h2 h3 h4
    unfold extract_date
    cases du <;> simp [h1, h2, h3, h4]
  · intro hi
    exact next_weekday_core now i (now / 1440 % 7) hi rfl

/-! ## C10 -/

/-- C10 counterexample: re-invoking the finalize step on the *same* unchanged
state produces a different EventSummary when the CREATE path is taken,
because `MockCalendarTool.create_event` draws a fresh `uuid4` identifier at
each invocation and the summary embeds it in `event_id`. -/
theorem c10_counterexample :
    finalize_calls_create createPathState = true ∧
    (finalize_with "aaaa1111" createPathState).event_summary ≠
      (finalize_with "bbbb2222" createPathState).event_summary :=
  ⟨rfl, by decide⟩

/-- C10 (amended): the finalize step is a pure function of the state and the
freshly drawn event identifier.  On every path that does not reach the
calendar `create_event` call, re-invocation yields an identical result
regardless of the identifier drawn; on the CREATE path the resulting
EventSummary embeds the freshly drawn identifier, so re-invocation is
idempotent only up to the `event_id` field. -/
theorem c10_amended (s : SchedState) (f1 f2 : String) :
    (finalize_calls_create s = false → finalize_with f1 s = finalize_with f2 s) ∧
    (finalize_calls_create s = true →
      ∃ es, (finalize_with f1 s).event_summary = some es ∧
        es.event_id = some ("mock-event-" ++ f1) ∧ es.status = .confirmed) := by
  constructor
  · intro h
    unfold finalize_calls_create at h
    unfold finalize_with create_event_node
    split_ifs at h ⊢ with h1 h2 <;> try rfl
    all_goals rcases hpd : s.policy_decision with _ | pd
    all_goals simp only [hpd] at h ⊢
    all_goals first
      | rfl
      | (simp_all [create_attempt]; done)
      | (cases ha : pd.action <;> simp only [ha] at h ⊢ <;> simp_all [create_attempt])
  · intro h
    unfold finalize_calls_create at h
    unfold finalize_with create_event_node
    split_ifs at h ⊢ with h1 h2
    all_goals rcases hpd : s.policy_decision with _ | pd
    all_goals simp only [hpd] at h ⊢
    all_goals first
      | (simp_all [mock_create_event, create_attempt]; done)
      | (cases ha : pd.action <;> simp only [ha] at h ⊢ <;>
          simp_all [mock_create_event, create_attempt])

/-! ## Workflow runs: evaluation facts -/

theorem strTruthy_none : strTruthy none = false := rfl

theorem decide_append_singleton_ne_nil (l : List String) (x : String) :
    decide (l ++ [x] ≠ []) = true := by simp

theorem decide_cons_ne_nil (x : String) (l : List String) :
    decide ((x :: l) ≠ []) = true := by simp

theorem pMore_truthy :
    strTruthy (some "Please provide more details about the scheduling request") = true := by
  decide

theorem clarText_truthy (x : String) :
    strTruthy (some ("Please provide missing information:\n" ++ x)) = true :=
  strTruthy_append_left _ x (by decide)

theorem fmtExample_truthy : strTruthy (some formatExampleMessage) = true := by decide

theorem wErr_truthy : strTruthy (some "Weather service error after retries") = true := by decide

theorem wErr_service :
    strContains (pyLower "Weather service error after retries") "service" = true := by decide

theorem wErr_weather :
    strContains (pyLower "Weather service error after retries") "weather" = true := by decide

theorem cErr_truthy : strTruthy (some "Calendar service error after retries") = true := by decide

theorem cErr_service :
    strContains (pyLower "Calendar service error after retries") "service" = true := by decide

theorem cErr_weather :
    strContains (pyLower "Calendar service error after retries") "weather" = false := by decide

theorem cErr_calendar :
    strContains (pyLower "Calendar service error after retries") "calendar" = true := by decide

/-! ## C1 -/

/-- C1: a request whose parse reports missing required fields gets, on its
first pass (clarification count 0), a clarification response assembled from
the missing-field bullets — no ERROR EventSummary — and control returns to
the caller; a resubmission carrying any clarification count ≥ 1 whose parse
still fails terminates with an ERROR EventSummary whose reason is the
full-format example message, and never receives a second clarification. -/
theorem c1_one_shot_clarification (orc : Oracles) (input followup msg msg2 : String)
    (k : Nat)
    (h1 : orc.parse input = .caught msg)
    (h2 : orc.parse followup = .caught msg2)
    (hk : 1 ≤ k) :
    ((invoke orc { input_text := input }).map fun r => r.map fun s =>
        (s.event_summary, s.clarification_needed, s.clarification_count)) =
      some (.ok (none,
        some ("Please provide missing information:\n" ++
          joinSep "\n" (clarification_parts (pyLower msg))), 1)) ∧
    ((invoke orc { input_text := followup, clarification_count := k }).map fun r =>
        r.map fun s =>
          (s.clarification_needed, s.event_summary.map fun es => (es.status, es.reason))) =
      some (.ok (none, some (.error, formatExampleMessage))) ∧
    (strContains (pyLower msg) "time" = true →
      bulletTime ∈ clarification_parts (pyLower msg)) ∧
    (strContains (pyLower msg) "location" = true →
      bulletLocation ∈ clarification_parts (pyLower msg)) := by
  have hu1 : userText ({ input_text := input } : SchedState) = input := by
    unfold userText
    by_cases h : input = "" <;> simp [h]
  have hu2 : userText ({ input_text := followup, clarification_count := k } : SchedState) =
      followup := by
    unfold userText
    by_cases h : followup = "" <;> simp [h]
  have hk0 : ¬(k = 0) := by omega
  refine ⟨?_, ?_, ?_, ?_⟩
  · simp only [invoke, run, stepNode, intent_and_slots_node, error_recovery_node,
      create_event_node, edge_from_intent, edge_from_error, hu1, h1,
      strTruthy_none, pMore_truthy, clarText_truthy, Option.getD,
      Bool.or_true, Bool.true_or, Bool.false_or, Bool.or_false,
      Bool.and_true, Bool.true_and, Bool.false_and, Bool.and_false,
      Bool.not_true, Bool.not_false, if_true, if_false, ite_true, ite_false,
      reduceCtorEq, Option.isSome_none, Option.isSome_some, List.nil_append, List.cons_append, List.singleton_append,
      decide_append_singleton_ne_nil, decide_cons_ne_nil, String.reduceEq, decide_False, decide_True, Option.map, Except.map]
    all_goals simp [clarText_truthy, strTruthy_none]
  · simp only [invoke, run, stepNode, intent_and_slots_node, error_recovery_node,
      create_event_node, edge_from_intent, edge_from_error, hu2, h2, hk0,
      strTruthy_none, pMore_truthy, fmtExample_truthy, Option.getD,
      Bool.or_true, Bool.true_or, Bool.false_or, Bool.or_false,
      Bool.and_true, Bool.true_and, Bool.false_and, Bool.and_false,
      Bool.not_true, Bool.not_false, if_true, if_false, ite_true, ite_false,
      reduceCtorEq, Option.isSome_none, Option.isSome_some, List.nil_append, List.cons_append, List.singleton_append,
      decide_append_singleton_ne_nil, decide_cons_ne_nil, String.reduceEq, decide_False, decide_True, Option.map, Except.map]
    all_goals simp [fmtExample_truthy, strTruthy_none]
  · intro h
    unfold clarification_parts
    simp [h]
  · intro h
    unfold clarification_parts
    simp [h]

/-! ## C2 -/

theorem create_attempt_summary (s : SchedState) (pd : PolicyDecision) (cn : Option String)
    (res : Except String CalendarEvent) :
    ∃ es, (create_attempt s pd cn res).event_summary = some es ∧
      (es.status = .confirmed ∨ es.status = .adjusted ∨ es.status = .conflict ∨
        es.status = .error) := by
  cases res <;> exact ⟨_, rfl, by simp [create_attempt]⟩

/-- C2 counterexample: two terminal behaviours of the compiled workflow
violate the claim.  The clarification-return path for "meet Alice" (missing
city and temporal cue, first pass) ends with `event_summary = None` and only
a clarification message; and an input whose extracted duration violates the
pydantic `Slot` bounds makes `graph.invoke` raise the pydantic
`ValidationError` — not caught by the `except (ParseError, ValidationError)`
clause at nodes.py line 78, which names the validator module\x27s class —
so no EventSummary is produced at all. -/
theorem c2_counterexample :
    ((invoke missingFieldsOrc { input_text := "meet Alice" }).map fun r =>
      r.map fun s => (s.event_summary, strTruthy s.clarification_needed)) =
      some (.ok (none, true)) ∧
    invoke pydanticCrashOrc { input_text := "tomorrow 2pm Taipei meet Alice 2 min" } =
      some (.error pydanticDurationMsg) :=
  ⟨rfl, rfl⟩

/-- C2 (amended): for every collaborator behaviour and every input, the
compiled workflow terminates, and every terminal path produces exactly one
well-formed EventSummary (status among confirmed/adjusted/conflict/error)
EXCEPT two paths: the first-pass clarification return, which ends with a
clarification message and no EventSummary, and the inputs on which `Slot`
construction raises pydantic\x27s ValidationError, which escapes the
`except` clause of `intent_and_slots_node` so that `graph.invoke` raises
that exception to its caller — and those are the only runs that raise. -/
theorem c2_every_terminal_path (orc : Oracles) (input uin : String) (k : Nat) :
    ∃ r, invoke orc { input_text := input, user_input := uin, clarification_count := k } =
        some r ∧
      ((∃ s, r = .ok s ∧
          ((∃ es, s.event_summary = some es ∧
              (es.status = .confirmed ∨ es.status = .adjusted ∨
                es.status = .conflict ∨ es.status = .error)) ∨
            (s.event_summary = none ∧ strTruthy s.clarification_needed = true))) ∨
        (∃ exc, r = .error exc ∧
          orc.parse (userText
            { input_text := input, user_input := uin, clarification_count := k }) =
            .uncaught exc)) := by
  rcases hp : orc.parse (userText
      { input_text := input, user_input := uin, clarification_count := k }) with
    ⟨city, dt, dur, att, des⟩ | msg | exc
  · rcases hw : orc.forecast city dt with _ | w
    · rcases ha : orc.avail dt dur with _ | r
      · simp only [invoke, run, stepNode, intent_and_slots_node, check_weather_node,
      find_free_slot_node, confirm_or_adjust_node, confirm_or_adjust,
      create_event_node, error_recovery_node, edge_from_intent, edge_from_weather,
      edge_from_conflict, edge_from_error, RiskCategory.toStr,
      strTruthy_none, pMore_truthy, clarText_truthy, fmtExample_truthy,
      wErr_truthy, wErr_service, wErr_weather,
      cErr_truthy, cErr_service, cErr_weather, cErr_calendar, Option.getD,
      Bool.or_true, Bool.true_or, Bool.false_or, Bool.or_false,
      Bool.and_true, Bool.true_and, Bool.false_and, Bool.and_false,
      Bool.not_true, Bool.not_false, if_true, if_false, ite_true, ite_false,
      reduceCtorEq, Option.isSome_none, Option.isSome_some,
      List.nil_append, List.cons_append, List.singleton_append,
      decide_append_singleton_ne_nil, decide_cons_ne_nil, String.reduceEq,
      decide_False, decide_True, Except.map, hp, hw, ha]
        exact ⟨_, rfl, Or.inl ⟨_, rfl, Or.inl (create_attempt_summary _ _ _ _)⟩⟩
      · by_cases hst : r.status = "conflict"
        · rcases hfs : find_weather_aware_slot orc dt dur with _ | sug <;>
          · simp only [invoke, run, stepNode, intent_and_slots_node, check_weather_node,
      find_free_slot_node, confirm_or_adjust_node, confirm_or_adjust,
      create_event_node, error_recovery_node, edge_from_intent, edge_from_weather,
      edge_from_conflict, edge_from_error, RiskCategory.toStr,
      strTruthy_none, pMore_truthy, clarText_truthy, fmtExample_truthy,
      wErr_truthy, wErr_service, wErr_weather,
      cErr_truthy, cErr_service, cErr_weather, cErr_calendar, Option.getD,
      Bool.or_true, Bool.true_or, Bool.false_or, Bool.or_false,
      Bool.and_true, Bool.true_and, Bool.false_and, Bool.and_false,
      Bool.not_true, Bool.not_false, if_true, if_false, ite_true, ite_false,
      reduceCtorEq, Option.isSome_none, Option.isSome_some,
      List.nil_append, List.cons_append, List.singleton_append,
      decide_append_singleton_ne_nil, decide_cons_ne_nil, String.reduceEq,
      decide_False, decide_True, Except.map, hp, hw, ha, hst, hfs]
            exact ⟨_, rfl, Or.inl ⟨_, rfl, Or.inl ⟨_, rfl, by simp⟩⟩⟩
        · simp only [invoke, run, stepNode, intent_and_slots_node, check_weather_node,
      find_free_slot_node, confirm_or_adjust_node, confirm_or_adjust,
      create_event_node, error_recovery_node, edge_from_intent, edge_from_weather,
      edge_from_conflict, edge_from_error, RiskCategory.toStr,
      strTruthy_none, pMore_truthy, clarText_truthy, fmtExample_truthy,
      wErr_truthy, wErr_service, wErr_weather,
      cErr_truthy, cErr_service, cErr_weather, cErr_calendar, Option.getD,
      Bool.or_true, Bool.true_or, Bool.false_or, Bool.or_false,
      Bool.and_true, Bool.true_and, Bool.false_and, Bool.and_false,
      Bool.not_true, Bool.not_false, if_true, if_false, ite_true, ite_false,
      reduceCtorEq, Option.isSome_none, Option.isSome_some,
      List.nil_append, List.cons_append, List.singleton_append,
      decide_append_singleton_ne_nil, decide_cons_ne_nil, String.reduceEq,
      decide_False, decide_True, Except.map, hp, hw, ha, hst]
          exact ⟨_, rfl, Or.inl ⟨_, rfl, Or.inl (create_attempt_summary _ _ _ _)⟩⟩
    · rcases ha : orc.avail dt dur with _ | r
      · simp only [invoke, run, stepNode, intent_and_slots_node, check_weather_node,
      find_free_slot_node, confirm_or_adjust_node, confirm_or_adjust,
      create_event_node, error_recovery_node, edge_from_intent, edge_from_weather,
      edge_from_conflict, edge_from_error, RiskCategory.toStr,
      strTruthy_none, pMore_truthy, clarText_truthy, fmtExample_truthy,
      wErr_truthy, wErr_service, wErr_weather,
      cErr_truthy, cErr_service, cErr_weather, cErr_calendar, Option.getD,
      Bool.or_true, Bool.true_or, Bool.false_or, Bool.or_false,
      Bool.and_true, Bool.true_and, Bool.false_and, Bool.and_false,
      Bool.not_true, Bool.not_false, if_true, if_false, ite_true, ite_false,
      reduceCtorEq, Option.isSome_none, Option.isSome_some,
      List.nil_append, List.cons_append, List.singleton_append,
      decide_append_singleton_ne_nil, decide_cons_ne_nil, String.reduceEq,
      decide_False, decide_True, Except.map, hp, hw, ha]
        exact ⟨_, rfl, Or.inl ⟨_, rfl, Or.inl (create_attempt_summary _ _ _ _)⟩⟩
      · by_cases hst : r.status = "conflict"
        · rcases hfs : find_weather_aware_slot orc dt dur with _ | sug <;>
          · simp only [invoke, run, stepNode, intent_and_slots_node, check_weather_node,
      find_free_slot_node, confirm_or_adjust_node, confirm_or_adjust,
      create_event_node, error_recovery_node, edge_from_intent, edge_from_weather,
      edge_from_conflict, edge_from_error, RiskCategory.toStr,
      strTruthy_none, pMore_truthy, clarText_truthy, fmtExample_truthy,
      wErr_truthy, wErr_service, wErr_weather,
      cErr_truthy, cErr_service, cErr_weather, cErr_calendar, Option.getD,
      Bool.or_true, Bool.true_or, Bool.false_or, Bool.or_false,
      Bool.and_true, Bool.true_and, Bool.false_and, Bool.and_false,
      Bool.not_true, Bool.not_false, if_true, if_false, ite_true, ite_false,
      reduceCtorEq, Option.isSome_none, Option.isSome_some,
      List.nil_append, List.cons_append, List.singleton_append,
      decide_append_singleton_ne_nil, decide_cons_ne_nil, String.reduceEq,
      decide_False, decide_True, Except.map, hp, hw, ha, hst, hfs]
            exact ⟨_, rfl, Or.inl ⟨_, rfl, Or.inl ⟨_, rfl, by simp⟩⟩⟩
        · rcases w with ⟨prob, rc, desc⟩
          cases rc
          · rcases hfs : find_weather_aware_slot orc dt dur with _ | sug <;>
            · simp only [invoke, run, stepNode, intent_and_slots_node, check_weather_node,
      find_free_slot_node, confirm_or_adjust_node, confirm_or_adjust,
      create_event_node, error_recovery_node, edge_from_intent, edge_from_weather,
      edge_from_conflict, edge_from_error, RiskCategory.toStr,
      strTruthy_none, pMore_truthy, clarText_truthy, fmtExample_truthy,
      wErr_truthy, wErr_service, wErr_weather,
      cErr_truthy, cErr_service, cErr_weather, cErr_calendar, Option.getD,
      Bool.or_true, Bool.true_or, Bool.false_or, Bool.or_false,
      Bool.and_true, Bool.true_and, Bool.false_and, Bool.and_false,
      Bool.not_true, Bool.not_false, if_true, if_false, ite_true, ite_false,
      reduceCtorEq, Option.isSome_none, Option.isSome_some,
      List.nil_append, List.cons_append, List.singleton_append,
      decide_append_singleton_ne_nil, decide_cons_ne_nil, String.reduceEq,
      decide_False, decide_True, Except.map, hp, hw, ha, hst, hfs]
              exact ⟨_, rfl, Or.inl ⟨_, rfl, Or.inl ⟨_, rfl, by simp⟩⟩⟩
          · simp only [invoke, run, stepNode, intent_and_slots_node, check_weather_node,
      find_free_slot_node, confirm_or_adjust_node, confirm_or_adjust,
      create_event_node, error_recovery_node, edge_from_intent, edge_from_weather,
      edge_from_conflict, edge_from_error, RiskCategory.toStr,
      strTruthy_none, pMore_truthy, clarText_truthy, fmtExample_truthy,
      wErr_truthy, wErr_service, wErr_weather,
      cErr_truthy, cErr_service, cErr_weather, cErr_calendar, Option.getD,
      Bool.or_true, Bool.true_or, Bool.false_or, Bool.or_false,
      Bool.and_true, Bool.true_and, Bool.false_and, Bool.and_false,
      Bool.not_true, Bool.not_false, if_true, if_false, ite_true, ite_false,
      reduceCtorEq, Option.isSome_none, Option.isSome_some,
      List.nil_append, List.cons_append, List.singleton_append,
      decide_append_singleton_ne_nil, decide_cons_ne_nil, String.reduceEq,
      decide_False, decide_True, Except.map, hp, hw, ha, hst]
            exact ⟨_, rfl, Or.inl ⟨_, rfl, Or.inl ⟨_, rfl, by simp⟩⟩⟩
          · simp only [invoke, run, stepNode, intent_and_slots_node, check_weather_node,
      find_free_slot_node, confirm_or_adjust_node, confirm_or_adjust,
      create_event_node, error_recovery_node, edge_from_intent, edge_from_weather,
      edge_from_conflict, edge_from_error, RiskCategory.toStr,
      strTruthy_none, pMore_truthy, clarText_truthy, fmtExample_truthy,
      wErr_truthy, wErr_service, wErr_weather,
      cErr_truthy, cErr_service, cErr_weather, cErr_calendar, Option.getD,
      Bool.or_true, Bool.true_or, Bool.false_or, Bool.or_false,
      Bool.and_true, Bool.true_and, Bool.false_and, Bool.and_false,
      Bool.not_true, Bool.not_false, if_true, if_false, ite_true, ite_false,
      reduceCtorEq, Option.isSome_none, Option.isSome_some,
      List.nil_append, List.cons_append, List.singleton_append,
      decide_append_singleton_ne_nil, decide_cons_ne_nil, String.reduceEq,
      decide_False, decide_True, Except.map, hp, hw, ha, hst]
            exact ⟨_, rfl, Or.inl ⟨_, rfl, Or.inl (create_attempt_summary _ _ _ _)⟩⟩
  · by_cases hk : k = 0
    · subst hk
      simp only [invoke, run, stepNode, intent_and_slots_node, check_weather_node,
      find_free_slot_node, confirm_or_adjust_node, confirm_or_adjust,
      create_event_node, error_recovery_node, edge_from_intent, edge_from_weather,
      edge_from_conflict, edge_from_error, RiskCategory.toStr,
      strTruthy_none, pMore_truthy, clarText_truthy, fmtExample_truthy,
      wErr_truthy, wErr_service, wErr_weather,
      cErr_truthy, cErr_service, cErr_weather, cErr_calendar, Option.getD,
      Bool.or_true, Bool.true_or, Bool.false_or, Bool.or_false,
      Bool.and_true, Bool.true_and, Bool.false_and, Bool.and_false,
      Bool.not_true, Bool.not_false, if_true, if_false, ite_true, ite_false,
      reduceCtorEq, Option.isSome_none, Option.isSome_some,
      List.nil_append, List.cons_append, List.singleton_append,
      decide_append_singleton_ne_nil, decide_cons_ne_nil, String.reduceEq,
      decide_False, decide_True, Except.map, hp]
      exact ⟨_, rfl, Or.inl ⟨_, rfl, Or.inr ⟨rfl, clarText_truthy _⟩⟩⟩
    · simp only [invoke, run, stepNode, intent_and_slots_node, check_weather_node,
      find_free_slot_node, confirm_or_adjust_node, confirm_or_adjust,
      create_event_node, error_recovery_node, edge_from_intent, edge_from_weather,
      edge_from_conflict, edge_from_error, RiskCategory.toStr,
      strTruthy_none, pMore_truthy, clarText_truthy, fmtExample_truthy,
      wErr_truthy, wErr_service, wErr_weather,
      cErr_truthy, cErr_service, cErr_weather, cErr_calendar, Option.getD,
      Bool.or_true, Bool.true_or, Bool.false_or, Bool.or_false,
      Bool.and_true, Bool.true_and, Bool.false_and, Bool.and_false,
      Bool.not_true, Bool.not_false, if_true, if_false, ite_true, ite_false,
      reduceCtorEq, Option.isSome_none, Option.isSome_some,
      List.nil_append, List.cons_append, List.singleton_append,
      decide_append_singleton_ne_nil, decide_cons_ne_nil, String.reduceEq,
      decide_False, decide_True, Except.map, hp, hk]
      exact ⟨_, rfl, Or.inl ⟨_, rfl, Or.inl ⟨_, rfl, by simp⟩⟩⟩
  · simp only [invoke, run, stepNode, intent_and_slots_node, check_weather_node,
      find_free_slot_node, confirm_or_adjust_node, confirm_or_adjust,
      create_event_node, error_recovery_node, edge_from_intent, edge_from_weather,
      edge_from_conflict, edge_from_error, RiskCategory.toStr,
      strTruthy_none, pMore_truthy, clarText_truthy, fmtExample_truthy,
      wErr_truthy, wErr_service, wErr_weather,
      cErr_truthy, cErr_service, cErr_weather, cErr_calendar, Option.getD,
      Bool.or_true, Bool.true_or, Bool.false_or, Bool.or_false,
      Bool.and_true, Bool.true_and, Bool.false_and, Bool.and_false,
      Bool.not_true, Bool.not_false, if_true, if_false, ite_true, ite_false,
      reduceCtorEq, Option.isSome_none, Option.isSome_some,
      List.nil_append, List.cons_append, List.singleton_append,
      decide_append_singleton_ne_nil, decide_cons_ne_nil, String.reduceEq,
      decide_False, decide_True, Except.map, hp]
    exact ⟨_, rfl, Or.inr ⟨exc, rfl, rfl⟩⟩

/-- Concrete instantiation of the one-shot clarification theorem: the mock
run for "meet Alice" returns a clarification, no EventSummary, and
clarification count 1. -/
theorem c1_one_shot_clarification_witness :
    ((invoke missingFieldsOrc { input_text := "meet Alice" }).map fun r => r.map fun s =>
        (s.event_summary, s.clarification_needed, s.clarification_count)) =
      some (.ok (none,
        some ("Please provide missing information:\n" ++
          joinSep "\n" (clarification_parts (pyLower missingFieldsMsg))), 1)) :=
  (c1_one_shot_clarification missingFieldsOrc "meet Alice" "meet Bob"
    missingFieldsMsg missingFieldsMsg 1 rfl rfl (by omega)).1

end Scheduler
